/-
  Verification of the SafeSeal pipeline (src/app.py) against its
  natural-language specification.

  The file shallowly embeds the parts of app.py that the claims are
  about: the progress computations, the watermark tile generator
  geometry, the per-page PDF rebuild loop, the LibreOffice conversion
  wrapper, and the run-button handler.  Python ints are modelled as
  Nat/Int, PDF point dimensions as ℚ, images as their pixel dimensions
  (no claim concerns individual pixel values), and fallible operations
  as Option/Except.
-/
import Mathlib

namespace SafeSeal

/-! ## Progress computations

`page_progress` in app.py (lines 247-250):
```
def page_progress(i, total):
    pct = 10 + int(90 * i / max(1, total))
    st.session_state["_pbar"].progress(min(pct, 100))
```
For non-negative ints, Python `int(90 * i / t)` truncates toward zero,
i.e. it is the floor of the exact quotient, which Nat division computes. -/

/-- `pct = 10 + int(90 * i / max(1, total))` from `page_progress`. -/
def pageProgressPct (i total : Nat) : Nat :=
  10 + 90 * i / max 1 total

/-- The value actually sent to the progress bar: `min(pct, 100)`. -/
def emittedPageProgress (i total : Nat) : Nat :=
  min (pageProgressPct i total) 100

/-- The sequence of progress values emitted by the watermarking loop of
`pdf_to_imageonly_pdf_with_watermark` on a document of `total` pages:
the loop calls `progress_cb(idx, total)` for `idx = 1 .. total`. -/
def pageProgressSeq (total : Nat) : List Nat :=
  (List.range total).map (fun k => emittedPageProgress (k + 1) total)

/-- Soft progress emitted while LibreOffice runs
(`convert_office_to_pdf_bytes`, lines 162-171): starting from `soft = 0`,
each poll iteration does `soft = min(soft + 2, 90)` and emits `soft`. -/
def softProgressSeq (polls : Nat) : List Nat :=
  (List.range polls).map (fun k => min (2 * (k + 1)) 90)

/-- All progress values emitted during a successful run of
`convert_office_to_pdf_bytes`: the soft values while polling, then
`progress(100)` just before returning (line 184). -/
def convProgressSeq (polls : Nat) : List Nat :=
  softProgressSeq polls ++ [100]

/-- All progress values emitted over one successful run of the handler
behind the "Start conversion" button: the bar is created at 0
(line 234), the LibreOffice phase runs unless the input is already a
PDF (lines 239-244), then the per-page values, then `progress(100)`
(line 257). -/
def runProgressSeq (isPdf : Bool) (polls total : Nat) : List Nat :=
  0 :: ((if isPdf then [] else convProgressSeq polls) ++ pageProgressSeq total ++ [100])

/-! ## Watermark fill colour

From `_draw_tiled_watermark` (line 110):
`fill = (180, 180, 180, max(0, min(255, opacity)))`. -/

/-- The RGBA fill colour used for the watermark text. -/
def watermarkFill (opacity : Int) : Int × Int × Int × Int :=
  (180, 180, 180, max 0 (min 255 opacity))

/-! ## Watermark tile generator (`_draw_tiled_watermark`, lines 103-118)

Images are modelled by their pixel dimensions; no claim concerns
individual pixel values, so the text stamping itself is not modelled
(the fill colour is `watermarkFill` above, the stamp coordinates are
`tileCoords` below). -/

/-- An image, modelled by its pixel dimensions. -/
structure Img where
  w : Nat
  h : Nat
  deriving Repr, DecidableEq

/-- `font_px = max(6, int(round(8 * dpi / 72.0)))` (line 105). -/
def fontPx (dpi : Nat) : Nat :=
  max 6 (round ((8 * dpi : ℚ) / 72) : ℤ).toNat

/-- `spacing_px = int(dpi)` (line 107). -/
def spacingPx (dpi : Nat) : Nat := dpi

/-- Python `range(start, stop, step)` for a positive step, over `Int`
bounds (empty when `step = 0`, where Python would raise instead). -/
def pythonRange (start stop : Int) (step : Nat) : List Int :=
  if step = 0 then []
  else (List.range (((stop - start).toNat + step - 1) / step)).map
    (fun k => start + k * step)

/-- The coordinates at which the watermark text is stamped (lines
111-113): `for y in range(-h, h*2, spacing): for x in range(-w, w*2,
spacing)`. -/
def tileCoords (w h spacing : Nat) : List (Int × Int) :=
  (pythonRange (-(h : Int)) (2 * h) spacing).flatMap
    (fun y => (pythonRange (-(w : Int)) (2 * w) spacing).map (fun x => (x, y)))

/-- The value of `math.cos(math.radians(45))` as computed in IEEE
doubles, as an exact rational. -/
def cos45 : ℚ := 7071067811865476 / 10000000000000000

/-- Pixel size of `layer.rotate(45, expand=True, resample=Image.BICUBIC)`
(line 114): PIL takes the integer bounding box of the four rotated
corners, which for a 45° rotation makes both dimensions
`⌈(w + h) · cos 45°⌉` (up to the float rounding of the corner
coordinates; no theorem below depends on the exact value). -/
def rotateExpandSize (w h : Nat) : Nat × Nat :=
  ((Int.ceil ((w + h : ℚ) * cos45)).toNat, (Int.ceil ((w + h : ℚ) * cos45)).toNat)

/-- Pixel size of PIL `crop((left, top, right, bottom))`: always
`(right - left, bottom - top)` (clamped at 0), regardless of the source
image's own bounds. -/
def cropSize (left top right bottom : Int) : Nat × Nat :=
  ((right - left).toNat, (bottom - top).toNat)

/-- `Image.alpha_composite(im1, im2)`: requires both images to have the
same size (PIL raises `ValueError` otherwise, modelled as `none`) and
returns an image of that size. -/
def alphaComposite (base layer : Img) : Option Img :=
  if base.w = layer.w ∧ base.h = layer.h then some ⟨base.w, base.h⟩ else none

/-- `_draw_tiled_watermark(img_rgba, text, dpi, angle=45, opacity)`
(lines 103-118): build a transparent layer of the page's size, stamp
the text at `tileCoords`, rotate by 45° with expansion, center-crop
back via `left, top = (lw - w) // 2, (lh - h) // 2` (Python `//` is
floor division, `Int.fdiv`), and alpha-composite over the page.  The
function performs no validation of `w` or `h`.  Only dimensions are
modelled; `text` and `opacity` do not affect them. -/
def drawTiledWatermark (w h : Nat) (_text : String) (_dpi : Nat) (_opacity : Int) :
    Option Img :=
  let lw : Int := (rotateExpandSize w h).1
  let lh : Int := (rotateExpandSize w h).2
  let left := Int.fdiv (lw - w) 2
  let top := Int.fdiv (lh - h) 2
  let cropped := cropSize left top (left + w) (top + h)
  alphaComposite ⟨w, h⟩ ⟨cropped.1, cropped.2⟩

/-! ## Per-page PDF rebuild (`pdf_to_imageonly_pdf_with_watermark`,
lines 120-139) -/

/-- One page of the source PDF: its intrinsic dimensions in points
(1/72 inch), kept exact as rationals. -/
structure SrcPage where
  wpt : ℚ
  hpt : ℚ
  deriving Repr, DecidableEq

/-- Pixel width of `page.get_pixmap(matrix=fitz.Matrix(dpi/72, dpi/72),
alpha=False)` (lines 126-127): PyMuPDF renders into the integer
bounding box of the zoomed page rectangle; with the page origin at 0
this is `⌈wpt * dpi / 72⌉`. -/
def pixmapWidth (p : SrcPage) (dpi : Nat) : Nat :=
  (Int.ceil (p.wpt * dpi / 72)).toNat

/-- Pixel height of the rendered pixmap, as `pixmapWidth`. -/
def pixmapHeight (p : SrcPage) (dpi : Nat) : Nat :=
  (Int.ceil (p.hpt * dpi / 72)).toNat

/-- One page of the output PDF: the page box in points as passed to
`out.new_page(width=…, height=…)` (line 133), and the pixel dimensions
of the JPEG placed on it (line 134). -/
structure OutPage where
  wpt : ℚ
  hpt : ℚ
  imgW : Nat
  imgH : Nat
  deriving Repr, DecidableEq

/-- The loop body of `pdf_to_imageonly_pdf_with_watermark` for one page
(lines 125-134): rasterize at `dpi`, watermark, JPEG-encode (the
`quality` parameter affects only the encoded bytes, not any dimension),
then create a new page with `rect = fitz.Rect(0, 0, pix.width,
pix.height)` and `new_page(width=rect.width, height=rect.height)` —
i.e. the page box in points is the pixel dimensions taken directly as
numbers of points — and insert the image to fill `rect`. -/
def processPage (wmText : String) (dpi _quality : Nat) (p : SrcPage) : Option OutPage :=
  let pw := pixmapWidth p dpi
  let ph := pixmapHeight p dpi
  match drawTiledWatermark pw ph wmText dpi 60 with
  | none => none
  | some img => some { wpt := (pw : ℚ), hpt := (ph : ℚ), imgW := img.w, imgH := img.h }

/-- `pdf_to_imageonly_pdf_with_watermark(pdf_bytes, wm_text, dpi,
quality, …)` (lines 120-139): iterate the source pages in order,
appending one output page per source page. -/
def pdfToImageonlyPdf (src : List SrcPage) (wmText : String) (dpi quality : Nat) :
    Option (List OutPage) :=
  match src with
  | [] => some []
  | p :: rest =>
    match processPage wmText dpi quality p, pdfToImageonlyPdf rest wmText dpi quality with
    | some op, some ops => some (op :: ops)
    | _, _ => none

/-- The page content produced by `processPage` (proved in
`processPage_eq` below): both the page box in points and the inserted
image's pixel dimensions equal the rendered pixmap dimensions. -/
def processedPage (dpi : Nat) (p : SrcPage) : OutPage :=
  { wpt := (pixmapWidth p dpi : ℚ), hpt := (pixmapHeight p dpi : ℚ),
    imgW := pixmapWidth p dpi, imgH := pixmapHeight p dpi }

/-! ## LibreOffice conversion (`_resolve_libreoffice_bin`, lines 22-33,
and `convert_office_to_pdf_bytes`, lines 144-186) -/

/-- The candidate binaries probed at startup (line 23). -/
def loCandidates : List String :=
  ["soffice", "libreoffice", "/usr/bin/soffice", "/usr/bin/libreoffice"]

/-- `_resolve_libreoffice_bin()` (lines 22-31): return the first
candidate that resolves on the host and whose `--version` invocation
succeeds; `avail` is the set of candidates for which both hold.  This
runs once at module load (`LO_BIN = _resolve_libreoffice_bin()`,
line 33). -/
def resolveLibreofficeBin (avail : List String) : Option String :=
  loCandidates.find? (fun c => avail.contains c)

/-- The externally visible processing steps of
`convert_office_to_pdf_bytes`, in order. -/
inductive ConvStep where
  | writeInput
  | launchLibreOffice
  | readOutput
  deriving Repr, DecidableEq

/-- The failure modes of `convert_office_to_pdf_bytes`:
`RuntimeError("LibreOffice is not available on this host.")` (line 146),
`RuntimeError(f"LibreOffice exit code …")` (line 179), and
`FileNotFoundError("No PDF produced by LibreOffice.")` (line 182). -/
inductive ConvError where
  | unavailableTool
  | loExitNonzero (code : Int)
  | noPdfProduced
  deriving Repr, DecidableEq

/-- `convert_office_to_pdf_bytes(file_bytes, in_name)` (lines 144-186),
with the external process's behaviour (its exit code and the `.pdf`
files it leaves in the output directory) as parameters.  The `LO_BIN`
check is the first statement of the function: when it fails, nothing
else happens — no temporary directory, no input write, no subprocess.
Returns the steps performed together with the result. -/
def convertOfficeToPdfBytes (loBin : Option String) (_fileBytes : List Nat)
    (_inName : String) (exitCode : Int) (outPdfs : List (List Nat)) :
    List ConvStep × Except ConvError (List Nat) :=
  match loBin with
  | none => ([], .error .unavailableTool)
  | some _ =>
    if exitCode ≠ 0 then
      ([.writeInput, .launchLibreOffice], .error (.loExitNonzero exitCode))
    else
      match outPdfs with
      | [] => ([.writeInput, .launchLibreOffice], .error .noPdfProduced)
      | pdf :: _ => ([.writeInput, .launchLibreOffice, .readOutput], .ok pdf)

/-! ## The "Start conversion" handler (lines 222-264) -/

/-- An uploaded file: its name and raw bytes. -/
structure Upload where
  name : String
  bytes : List Nat
  deriving Repr, DecidableEq

/-- The failure modes of the run handler: `st.error(...)` followed by
`st.stop()` for a missing upload (line 224) or an empty watermark
(line 227), and any exception escaping the pipeline (line 263). -/
inductive RunError where
  | noUpload
  | emptyWatermark
  | pipelineFailed
  deriving Repr, DecidableEq

/-- Effects of the run handler visible before/while the pipeline runs:
revealing the status box (lines 231-234), starting the watermark
pipeline (line 252), and processing page `i` inside it (line 125). -/
inductive RunEvent where
  | revealStatus
  | pipelineStarted
  | pageStarted (i : Nat)
  deriving Repr, DecidableEq

/-- The handler behind the "Start conversion" button (lines 222-264),
from the two input checks onward.  `src` stands for the parsed pages of
the (possibly LibreOffice-converted) PDF; the office-conversion phase
is modelled separately by `convertOfficeToPdfBytes`.  Both rejection
checks fire before the status box is revealed and before any
rasterization: on `len(wm_text) == 0` the handler stops with no event
emitted. -/
def runHandler (uploaded : Option Upload) (wmText : String) (dpi quality : Nat)
    (src : List SrcPage) : List RunEvent × Except RunError (List OutPage) :=
  match uploaded with
  | none => ([], .error .noUpload)
  | some _ =>
    if wmText.length = 0 then ([], .error .emptyWatermark)
    else
      match pdfToImageonlyPdf src wmText dpi quality with
      | none => ([.revealStatus, .pipelineStarted], .error .pipelineFailed)
      | some out =>
        ([.revealStatus, .pipelineStarted] ++
          (List.range src.length).map (fun k => .pageStarted (k + 1)), .ok out)

/-! ## Helper lemmas -/

/-- The tile generator always returns the composited image at exactly
the input dimensions: the crop box has width `(left + w) - left = w`
and height `(top + h) - top = h` whatever the rotated layer's size, so
the composite succeeds with size `(w, h)`. -/
theorem drawTiledWatermark_eq (w h : Nat) (text : String) (dpi : Nat) (opacity : Int) :
    drawTiledWatermark w h text dpi opacity = some ⟨w, h⟩ := by
  simp [drawTiledWatermark, cropSize, alphaComposite, add_sub_cancel_left]

/-- `processPage` never fails and produces `processedPage`. -/
theorem processPage_eq (wmText : String) (dpi quality : Nat) (p : SrcPage) :
    processPage wmText dpi quality p = some (processedPage dpi p) := by
  simp [processPage, drawTiledWatermark_eq, processedPage]

/-- The rebuild loop never fails and maps `processedPage` over the
source pages in order. -/
theorem pdfToImageonlyPdf_eq (src : List SrcPage) (wmText : String) (dpi quality : Nat) :
    pdfToImageonlyPdf src wmText dpi quality = some (src.map (processedPage dpi)) := by
  induction src with
  | nil => rfl
  | cons p rest ih => simp [pdfToImageonlyPdf, processPage_eq, ih]

/-! ## Theorems for the progress claims -/

/-- **C9.** The per-page progress computation divides by `max 1 total`,
so the divisor is always positive (never zero, even for a zero-page
document), and for a zero-page document the value degenerates to
`10 + 90 * i` rather than a division by zero. -/
theorem pageProgressPct_well_defined (i total : Nat) (_h : 1 ≤ i) :
    0 < max 1 total ∧ pageProgressPct i 0 = 10 + 90 * i := by
  constructor
  · exact lt_of_lt_of_le Nat.zero_lt_one (le_max_left 1 total)
  · simp [pageProgressPct]

/-- Witness for `pageProgressPct_well_defined` at `i = 1`, `total = 5`. -/
theorem pageProgressPct_well_defined_witness :
    0 < max 1 5 ∧ pageProgressPct 1 0 = 10 + 90 * 1 :=
  pageProgressPct_well_defined 1 5 (by decide)

/-- **C2 counterexample.** The claim reserves a 0-10% band for the
external-conversion phase, but `convert_office_to_pdf_bytes` drives the
soft progress toward 90 and emits `progress(100)` on completion: already
with a single poll iteration the phase emits the value 100, which lies
outside the 0-10 band. -/
theorem conv_progress_exceeds_band :
    100 ∈ convProgressSeq 1 ∧ ¬ (∀ v ∈ convProgressSeq 1, v ≤ 10) := by
  decide

/-- **C2 (amended).** Every progress value emitted during the external
conversion phase lies in `[0, 100]` (soft values capped at 90, then a
final 100) — not within a 0-10 band — and each per-page progress value
emitted during the watermarking phase (`1 ≤ i ≤ total`) equals
`10 + floor(90 * i / total)`, the `min … 100` clamp being inactive
there. -/
theorem conv_and_page_progress (polls i total : Nat)
    (h1 : 1 ≤ i) (h2 : i ≤ total) :
    (∀ v ∈ convProgressSeq polls, v ≤ 100) ∧
    emittedPageProgress i total = 10 + 90 * i / total := by
  have htot : 0 < total := lt_of_lt_of_le h1 h2
  constructor
  · intro v hv
    rcases List.mem_append.1 hv with hs | hf
    · rcases List.mem_map.1 hs with ⟨k, _, rfl⟩
      exact le_trans (min_le_right _ _) (by norm_num)
    · simp only [List.mem_singleton] at hf
      omega
  · have hmax : max 1 total = total := max_eq_right htot
    have hdiv : 90 * i / total < 91 :=
      (Nat.div_lt_iff_lt_mul htot).2 (by omega)
    unfold emittedPageProgress pageProgressPct
    rw [hmax]
    exact min_eq_left (by omega)

/-- Witness for `conv_and_page_progress` at `polls = 1`, `i = 1`,
`total = 2`. -/
theorem conv_and_page_progress_witness :
    (∀ v ∈ convProgressSeq 1, v ≤ 100) ∧
    emittedPageProgress 1 2 = 10 + 90 * 1 / 2 :=
  conv_and_page_progress 1 1 2 (by decide) (by decide)

/-- **C3 counterexample.** Over a successful run that includes the
external-conversion phase, the progress sequence is not monotonically
non-decreasing: with one poll iteration and a 2-page document the
emitted values are `[0, 2, 100, 55, 100, 100]` — the conversion phase
ends at 100 and the first per-page value drops back to 55. -/
theorem run_progress_not_monotone :
    runProgressSeq false 1 2 = [0, 2, 100, 55, 100, 100] ∧
    ¬ List.Chain' (· ≤ ·) (runProgressSeq false 1 2) := by
  have h : runProgressSeq false 1 2 = [0, 2, 100, 55, 100, 100] := by rfl
  refine ⟨h, ?_⟩
  rw [h]
  intro hc
  rw [List.chain'_cons, List.chain'_cons, List.chain'_cons] at hc
  exact absurd hc.2.2.1 (by norm_num)

/-- **C3 (amended).** The final progress value of any successful run is
exactly 100, and the full sequence is monotonically non-decreasing when
the input is already a PDF (no conversion phase); when the conversion
phase runs, that phase ends at 100 and monotonicity across the whole
run can fail (see the counterexample). -/
theorem run_progress_last_and_pdf_monotone (isPdf : Bool) (polls total : Nat) :
    (runProgressSeq isPdf polls total).getLast? = some 100 ∧
    List.Chain' (· ≤ ·) (runProgressSeq true polls total) := by
  constructor
  · have h : runProgressSeq isPdf polls total =
        (0 :: ((if isPdf then [] else convProgressSeq polls) ++ pageProgressSeq total)) ++ [100] := by
      simp [runProgressSeq]
    rw [h, List.getLast?_concat]
  · have hseq : runProgressSeq true polls total =
        0 :: (pageProgressSeq total ++ [100]) := by
      simp [runProgressSeq]
    rw [hseq]
    apply List.chain'_cons'.2
    constructor
    · intro y _
      exact Nat.zero_le y
    · apply List.chain'_append.2
      refine ⟨?_, List.chain'_singleton 100, ?_⟩
      · unfold pageProgressSeq
        apply (List.chain'_map _).2
        cases total with
        | zero => simp
        | succ n =>
          apply (List.chain'_range_succ _ n).2
          intro m _
          apply min_le_min _ (le_refl 100)
          apply Nat.add_le_add_left
          apply Nat.div_le_div_right
          exact Nat.mul_le_mul_left 90 (by omega)
      · intro x hx y hy
        simp only [List.head?_cons, Option.mem_def, Option.some.injEq] at hy
        subst hy
        have hmem := List.mem_of_mem_getLast? hx
        rcases List.mem_map.1 hmem with ⟨k, _, rfl⟩
        exact min_le_right _ _

/-- **C10.** For every integer opacity argument, including values below 0
or above 255, the alpha channel of the fill colour built by
`_draw_tiled_watermark` is clamped into `[0, 255]`. -/
theorem watermarkFill_alpha_in_range (opacity : Int) :
    0 ≤ (watermarkFill opacity).2.2.2 ∧ (watermarkFill opacity).2.2.2 ≤ 255 := by
  unfold watermarkFill
  constructor
  · exact le_max_left 0 _
  · simp only [max_le_iff]
    exact ⟨by norm_num, min_le_left 255 opacity⟩

/-! ## Theorems for the watermark geometry claims -/

/-- **C7.** For every page image of positive pixel size `(w, h)` and
every watermark text, `_draw_tiled_watermark` rotates the tiled layer
by 45° with expansion, center-crops it back to exactly `(w, h)`, and
alpha-composites it over the page, so the returned image has exactly
the input dimensions `(w, h)`. -/
theorem watermark_preserves_dimensions (w h : Nat) (text : String) (dpi : Nat)
    (opacity : Int) (_hw : 0 < w) (_hh : 0 < h) :
    drawTiledWatermark w h text dpi opacity = some ⟨w, h⟩ :=
  drawTiledWatermark_eq w h text dpi opacity

/-- Witness for `watermark_preserves_dimensions` at a 3×2 image. -/
theorem watermark_preserves_dimensions_witness :
    drawTiledWatermark 3 2 "TEST" 120 60 = some ⟨3, 2⟩ :=
  watermark_preserves_dimensions 3 2 "TEST" 120 60 (by decide) (by decide)

/-- **C5 counterexample.** The claim says a degenerate page size makes
the tile generator fail with an `InvalidGeometry` error, but
`_draw_tiled_watermark` contains no validation and no such error exists
anywhere in the program: at `w = 0` it returns normally with an image
of the same degenerate size. -/
theorem degenerate_size_no_error :
    drawTiledWatermark 0 792 "TEST" 120 60 = some ⟨0, 792⟩ ∧
    (drawTiledWatermark 0 792 "TEST" 120 60).isSome = true := by
  refine ⟨drawTiledWatermark_eq 0 792 "TEST" 120 60, ?_⟩
  rw [drawTiledWatermark_eq]
  rfl

/-- **C5 (amended).** `_draw_tiled_watermark` performs no geometry
validation: invoked with a degenerate page size (`w = 0` or `h = 0`;
pixel dimensions are non-negative counts), it does not fail — it
returns the composited image of that same degenerate size. -/
theorem degenerate_size_returns_image (w h : Nat) (text : String) (dpi : Nat)
    (opacity : Int) (_hdeg : w = 0 ∨ h = 0) :
    drawTiledWatermark w h text dpi opacity = some ⟨w, h⟩ :=
  drawTiledWatermark_eq w h text dpi opacity

/-- Witness for `degenerate_size_returns_image` at `w = 0`, `h = 5`. -/
theorem degenerate_size_returns_image_witness :
    drawTiledWatermark 0 5 "TEST" 120 60 = some ⟨0, 5⟩ :=
  degenerate_size_returns_image 0 5 "TEST" 120 60 (Or.inl rfl)

/-! ## Theorems for the rebuild-pipeline claims -/

/-- **C4.** The rebuild succeeds on every input and the output PDF has
exactly as many pages as the input, in the same order: for every index
`i`, output page `i` is the result of processing source page `i`. -/
theorem page_count_and_order_preserved (src : List SrcPage) (wmText : String)
    (dpi quality : Nat) :
    ∃ out, pdfToImageonlyPdf src wmText dpi quality = some out ∧
      out.length = src.length ∧
      ∀ i : Nat, out[i]? = (src[i]?).bind (processPage wmText dpi quality) := by
  refine ⟨src.map (processedPage dpi), pdfToImageonlyPdf_eq src wmText dpi quality,
    by simp, ?_⟩
  intro i
  rcases h : src[i]? with _ | p
  · simp [List.getElem?_map, h]
  · simp [List.getElem?_map, h, processPage_eq]

/-- **C1 counterexample.** The claim says each output page box in
points equals the rasterized pixel dimensions converted back to points
at the chosen DPI (and that a 612×792-point source at 120 dpi yields a
612×792-point page).  The code instead passes the pixel counts directly
as point dimensions to `new_page`: the 612×792-point source at 120 dpi
renders to a 1020×1320 pixmap and yields a 1020×1320-point page, while
`1020 * 72 / 120 = 612 ≠ 1020`. -/
theorem page_box_not_rescaled :
    (pdfToImageonlyPdf [⟨612, 792⟩] "TEST" 120 75).map
        (List.map (fun op => (op.wpt, op.hpt, op.imgW, op.imgH)))
      = some [((1020 : ℚ), (1320 : ℚ), 1020, 1320)] ∧
    ¬ ((1020 : ℚ) = (1020 : ℚ) * 72 / 120 ∧ (1320 : ℚ) = (1320 : ℚ) * 72 / 120) := by
  constructor
  · rw [pdfToImageonlyPdf_eq]
    simp only [List.map_cons, List.map_nil, Option.map_some, processedPage,
      pixmapWidth, pixmapHeight]
    norm_num
    simp
  · intro hcl
    have := hcl.1
    norm_num at this

/-- **C1 (amended).** Each output page's page box in points equals the
corresponding source page's rasterized pixel dimensions taken directly
as points (`pix.width × pix.height` points, i.e. `dpi/72` times the
source's physical size, not the source's physical size itself); the
612×792-point source at 120 dpi yields a 1020×1320-point page. -/
theorem page_box_equals_pixel_dims (src : List SrcPage) (wmText : String)
    (dpi quality : Nat) (out : List OutPage) (i : Nat)
    (h : pdfToImageonlyPdf src wmText dpi quality = some out) :
    (out[i]?).map OutPage.wpt = (src[i]?).map (fun p => (pixmapWidth p dpi : ℚ)) ∧
    (out[i]?).map OutPage.hpt = (src[i]?).map (fun p => (pixmapHeight p dpi : ℚ)) := by
  rw [pdfToImageonlyPdf_eq] at h
  injection h with h
  subst h
  rcases hs : src[i]? with _ | p
  · simp [List.getElem?_map, hs]
  · simp [List.getElem?_map, hs, processedPage]

/-- Witness for `page_box_equals_pixel_dims` on the 612×792-point page
at 120 dpi, where the output page box is 1020×1320 points. -/
theorem page_box_equals_pixel_dims_witness :
    (([⟨(1020 : ℚ), (1320 : ℚ), 1020, 1320⟩] : List OutPage)[0]?).map OutPage.wpt
      = (([⟨612, 792⟩] : List SrcPage)[0]?).map (fun p => (pixmapWidth p 120 : ℚ)) ∧
    (([⟨(1020 : ℚ), (1320 : ℚ), 1020, 1320⟩] : List OutPage)[0]?).map OutPage.hpt
      = (([⟨612, 792⟩] : List SrcPage)[0]?).map (fun p => (pixmapHeight p 120 : ℚ)) :=
  page_box_equals_pixel_dims [⟨612, 792⟩] "TEST" 120 75
    [⟨(1020 : ℚ), (1320 : ℚ), 1020, 1320⟩] 0 (by
      rw [pdfToImageonlyPdf_eq]
      simp only [List.map_cons, List.map_nil, processedPage, pixmapWidth, pixmapHeight]
      norm_num
      simp)

/-! ## Theorems for the conversion and driver claims -/

/-- **C6.** LibreOffice availability is resolved by the single
startup-time check `LO_BIN = _resolve_libreoffice_bin()`; whenever that
check found no working binary, every conversion request fails
immediately with the unavailable-tool error, performing none of its
processing steps (no input write, no subprocess launch, no output
read), whatever the input and whatever the external process would have
done. -/
theorem unavailable_tool_fails_fast (avail : List String) (fileBytes : List Nat)
    (inName : String) (exitCode : Int) (outPdfs : List (List Nat))
    (h : resolveLibreofficeBin avail = none) :
    convertOfficeToPdfBytes (resolveLibreofficeBin avail) fileBytes inName exitCode outPdfs
      = ([], .error .unavailableTool) := by
  rw [h]
  rfl

/-- Witness for `unavailable_tool_fails_fast` on a host where no
candidate binary works. -/
theorem unavailable_tool_fails_fast_witness :
    convertOfficeToPdfBytes (resolveLibreofficeBin []) [1, 2, 3] "report.docx" 0 [[9]]
      = ([], .error .unavailableTool) :=
  unavailable_tool_fails_fast [] [1, 2, 3] "report.docx" 0 [[9]] rfl

/-- **C8.** An empty watermark text is rejected by the run handler
before anything else happens: for every upload, profile and source
document, the handler stops with the empty-watermark error, without
revealing the status box, without starting the pipeline, and without
processing any page (no event is emitted at all). -/
theorem empty_watermark_rejected (u : Upload) (dpi quality : Nat) (src : List SrcPage) :
    runHandler (some u) "" dpi quality src = ([], .error .emptyWatermark) := by
  simp [runHandler]

end SafeSeal
